import Mathlib

/-
Shallow embedding of the fastjson library (fastjson.hpp) for checking the
natural-language specification against the code.  Each definition is a direct
transcription of the corresponding C++ function; statement order of the C++
source is preserved, including field reads that happen after earlier writes.
Pointers are modelled as natural-number addresses, the null pointer as `none`,
and the object graph as a total function from addresses to node records.
-/

namespace FastJson

/-- Value type tags, from the `value_type` enum of fastjson.hpp. -/
inductive VType
| vnull
| vbool
| vnumber
| vstring
| varray
| vobject
deriving DecidableEq, Repr

/-- One `json_value` / `json_object` node.  `json_object` derives from
`json_value`, so every node carries both the value fields (owner/prev/next)
and the container fields (child/lastchild/numchildren); for plain values the
container fields are unused, mirroring the C++ object layout. -/
structure Node where
  vtype : VType
  owner : Option Nat
  prev : Option Nat
  next : Option Nat
  child : Option Nat
  lastchild : Option Nat
  numchildren : Nat
deriving DecidableEq, Repr

/-- The node store: a total map from addresses to nodes. -/
def Heap : Type := Nat → Node

/-- Write the `owner_` field of the node at address `a`. -/
def setOwner (h : Heap) (a : Nat) (v : Option Nat) : Heap :=
  fun x => if x = a then { h a with owner := v } else h x

/-- Write the `prev_` field of the node at address `a`. -/
def setPrev (h : Heap) (a : Nat) (v : Option Nat) : Heap :=
  fun x => if x = a then { h a with prev := v } else h x

/-- Write the `next_` field of the node at address `a`. -/
def setNext (h : Heap) (a : Nat) (v : Option Nat) : Heap :=
  fun x => if x = a then { h a with next := v } else h x

/-- Write the `child_` field of the node at address `a`. -/
def setChild (h : Heap) (a : Nat) (v : Option Nat) : Heap :=
  fun x => if x = a then { h a with child := v } else h x

/-- Write the `lastchild_` field of the node at address `a`. -/
def setLastchild (h : Heap) (a : Nat) (v : Option Nat) : Heap :=
  fun x => if x = a then { h a with lastchild := v } else h x

/-- Write the `numchildren_` field of the node at address `a`. -/
def setNumchildren (h : Heap) (a : Nat) (v : Nat) : Heap :=
  fun x => if x = a then { h a with numchildren := v } else h x

/-- json_object::add_child (fastjson.hpp lines 1489-1505): append `c` at the
end of `self`'s child list, set owner, fix links, bump the child count. -/
def add_child (h : Heap) (self c : Nat) : Heap :=
  let h1 := setOwner h c (some self)
  let h2 := setNext (setPrev h1 c none) c none
  let h5 :=
    if (h2 self).child = none then
      setLastchild (setChild h2 self (some c)) self (some c)
    else
      let h3 := setPrev h2 c ((h2 self).lastchild)
      let h4 :=
        match (h3 self).lastchild with
        | some l => setNext h3 l (some c)
        | none => h3
      setLastchild h4 self (some c)
  setNumchildren h5 self ((h5 self).numchildren + 1)

/-- json_object::array_add (lines 1274-1279): reject a non-array `self`, a
null pointer, or an owned value; otherwise `add_child`.  The C++ performs no
identity check against the shared null sentinel. -/
def array_add (h : Heap) (self : Nat) (val : Option Nat) : Heap × Bool :=
  match val with
  | none => (h, false)
  | some v =>
    if (h self).vtype ≠ VType.varray ∨ (h v).owner ≠ none then (h, false)
    else (add_child h self v, true)

/-- A pointer-to-pointer (`json_value** pp`) as used by array_insert: it
designates either a link field of `self` or a sibling link of a node. -/
inductive Slot
| lastC (self : Nat)
| prevOf (n : Nat)
| firstC (self : Nat)
| nextOf (n : Nat)
deriving DecidableEq, Repr

/-- Dereference `*pp`. -/
def readSlot (h : Heap) : Slot → Option Nat
| Slot.lastC s => (h s).lastchild
| Slot.prevOf n => (h n).prev
| Slot.firstC s => (h s).child
| Slot.nextOf n => (h n).next

/-- Assign `*pp = v`. -/
def writeSlot (h : Heap) (sl : Slot) (v : Option Nat) : Heap :=
  match sl with
  | Slot.lastC s => setLastchild h s v
  | Slot.prevOf n => setPrev h n v
  | Slot.firstC s => setChild h s v
  | Slot.nextOf n => setNext h n v

/-- The loop `while (++index < 0 && *pp) pp = &(*pp)->prev_;` of array_insert
(line 1294), run for `k` rounds: each round requires `*pp` non-null and moves
`pp` to the `prev_` field of that node. -/
def walkPrevSlots (h : Heap) : Nat → Slot → Slot
| 0, sl => sl
| k + 1, sl =>
  match readSlot h sl with
  | none => sl
  | some n => walkPrevSlots h k (Slot.prevOf n)

/-- The loop `while (index-- > 0 && *pp) pp = &(*pp)->next_;` of array_insert
(line 1305), run for `k` rounds. -/
def walkNextSlots (h : Heap) : Nat → Slot → Slot
| 0, sl => sl
| k + 1, sl =>
  match readSlot h sl with
  | none => sl
  | some n => walkNextSlots h k (Slot.nextOf n)

/-- Body of array_insert's negative-index branch (lines 1291-1301 and
1314-1315) once the slot walk has fixed `pp`.  The C++ statement order is
kept: `val->prev_ = *pp;` then `if (val->prev_) val->prev_->next_ = val; else
child_ = val;` then `val->next_ = *pp ? (*pp)->next_ : 0;` (a read performed
after the previous write), then `*pp = val; ++numchildren_;`.  No write to
`val->owner_` appears anywhere in the C++ function. -/
def insertAtSlotNeg (h : Heap) (self v : Nat) (pp : Slot) : Heap :=
  let p0 := readSlot h pp
  let h1 := setPrev h v p0
  let h2 :=
    match p0 with
    | some q => setNext h1 q (some v)
    | none => setChild h1 self (some v)
  let t :=
    match readSlot h2 pp with
    | some q => (h2 q).next
    | none => none
  let h3 := setNext h2 v t
  let h4 := writeSlot h3 pp (some v)
  setNumchildren h4 self ((h4 self).numchildren + 1)

/-- Body of array_insert's non-negative branch (lines 1302-1315): mirror of
`insertAtSlotNeg` with next/prev and child/lastchild exchanged. -/
def insertAtSlotPos (h : Heap) (self v : Nat) (pp : Slot) : Heap :=
  let p0 := readSlot h pp
  let h1 := setNext h v p0
  let h2 :=
    match p0 with
    | some q => setPrev h1 q (some v)
    | none => setLastchild h1 self (some v)
  let t :=
    match readSlot h2 pp with
    | some q => (h2 q).prev
    | none => none
  let h3 := setPrev h2 v t
  let h4 := writeSlot h3 pp (some v)
  setNumchildren h4 self ((h4 self).numchildren + 1)

/-- json_object::array_insert (lines 1286-1317).  For a negative index the
walk runs `-index - 1` rounds starting at `&lastchild_`; for a non-negative
index it runs `index` rounds starting at `&child_`. -/
def array_insert (h : Heap) (self : Nat) (val : Option Nat) (index : Int) : Heap × Bool :=
  match val with
  | none => (h, false)
  | some v =>
    if (h self).vtype ≠ VType.varray ∨ (h v).owner ≠ none then (h, false)
    else if index < 0 then
      (insertAtSlotNeg h self v (walkPrevSlots h ((-index) - 1).toNat (Slot.lastC self)), true)
    else
      (insertAtSlotPos h self v (walkNextSlots h index.toNat (Slot.firstC self)), true)

/-- The loop `while (++index < 0 && p) p = p->prev_;` of at(int) (line 1244),
on a plain node pointer. -/
def walkPrevPtr (h : Heap) : Nat → Option Nat → Option Nat
| 0, p => p
| k + 1, p =>
  match p with
  | none => none
  | some n => walkPrevPtr h k ((h n).prev)

/-- The loop `while (index-- > 0 && p) p = p->next_;` of at(int) (line 1248). -/
def walkNextPtr (h : Heap) : Nat → Option Nat → Option Nat
| 0, p => p
| k + 1, p =>
  match p with
  | none => none
  | some n => walkNextPtr h k ((h n).next)

/-- json_object::at(int) (lines 1238-1251).  The local `p` is initialized to
`lastchild_` in the negative branch only; in the non-negative branch the C++
declares `const json_value* p;` and never assigns it before the loop, so the
walk starts from whatever indeterminate value the local holds.  That
indeterminate initial value is the explicit parameter `junk`.  A `none`
result models returning the shared null sentinel. -/
def at_index (h : Heap) (self : Nat) (index : Int) (junk : Option Nat) : Option Nat :=
  if index < 0 then walkPrevPtr h ((-index) - 1).toNat ((h self).lastchild)
  else walkNextPtr h index.toNat junk

/-- The three stores `child_->owner_ = 0; child_->prev_ = child_->next_ = 0;`
of remove_all (lines 1479-1480). -/
def clearChildFields (h : Heap) (c : Nat) : Heap :=
  setNext (setPrev (setOwner h c none) c none) c none

/-- The loop of json_object::remove_all (lines 1475-1482).  `p` is set once
from `child_` before the loop and never reassigned in the C++ body, so the
saved `next` is always read from the original first child. -/
def removeAllLoop (h : Heap) (p self : Nat) : Nat → Heap
| 0 => h
| fuel + 1 =>
  match (h self).child with
  | none => h
  | some c =>
    let nx := (h p).next
    let h1 := clearChildFields h c
    let h2 := setChild h1 self nx
    removeAllLoop h2 p self fuel

/-- json_object::remove_all (lines 1473-1485): run the loop, then
`numchildren_ = 0; child_ = lastchild_ = 0;`.  The fuel `numchildren + 2` is
never exhausted: `removeAllLoop_fuel` below shows two rounds always suffice,
because the first round clears `p->next_` and the second round therefore
saves `next == null`. -/
def remove_all (h : Heap) (self : Nat) : Heap :=
  let h' :=
    match (h self).child with
    | none => h
    | some a => removeAllLoop h a self ((h self).numchildren + 2)
  setLastchild (setChild (setNumchildren h' self 0) self none) self none

/-- An empty node: type null, no owner, no links, no children. -/
def blank : Node :=
  { vtype := VType.vnull, owner := none, prev := none, next := none,
    child := none, lastchild := none, numchildren := 0 }

/-- Concrete heap: an array at address 1 with a single child at address 2.
Address 0 plays the role of the shared null sentinel (`json_value::null()`):
type null, empty name, no owner, no siblings.  Address 3 is a fresh unowned
value available for insertion. -/
def exHeap1 : Heap := fun a =>
  if a = 1 then
    { blank with vtype := VType.varray, child := some 2, lastchild := some 2, numchildren := 1 }
  else if a = 2 then { blank with owner := some 1 }
  else blank

/-- Concrete heap: an array at address 1 with children 2, 3, 4 forming a
well-linked list. -/
def exHeap3 : Heap := fun a =>
  if a = 1 then
    { blank with vtype := VType.varray, child := some 2, lastchild := some 4, numchildren := 3 }
  else if a = 2 then { blank with owner := some 1, next := some 3 }
  else if a = 3 then { blank with owner := some 1, prev := some 2, next := some 4 }
  else if a = 4 then { blank with owner := some 1, prev := some 3 }
  else blank

/-- internal::hex_value (lines 345-366): value of one hex character, `none`
modelling the parse-error call for a non-hex character. -/
def hex_value (c : Nat) : Option Nat :=
  if 48 ≤ c ∧ c ≤ 57 then some (c - 48)
  else if c = 97 ∨ c = 65 then some 10
  else if c = 98 ∨ c = 66 then some 11
  else if c = 99 ∨ c = 67 then some 12
  else if c = 100 ∨ c = 68 then some 13
  else if c = 101 ∨ c = 69 then some 14
  else if c = 102 ∨ c = 70 then some 15
  else none

/-- internal::read_utf16 (lines 562-575): read a `\uXXXX` escape; returns the
16-bit value `(h0 << 12) | (h1 << 8) | (h2 << 4) | h3` and the rest of the
input.  The caller (parse_string) has already checked that six characters are
available. -/
def read_utf16 (s : List Nat) : Option (Nat × List Nat) :=
  match s with
  | c0 :: c1 :: h0 :: h1 :: h2 :: h3 :: rest =>
    if c0 = 92 then
      if c1 = 117 then
        match hex_value h0, hex_value h1, hex_value h2, hex_value h3 with
        | some a, some b, some c, some d =>
          some ((a <<< 12) ||| ((b <<< 8) ||| ((c <<< 4) ||| d)), rest)
        | _, _, _, _ => none
      else none
    else none
  | _ => none

/-- internal::to_utf32<Flags, Ch, 2>::convert (lines 639-676): decode one
code point from UTF-16 units.  For a surrogate pair the C++ computes
`out = (c & 0x3ff) << 10; out |= (c & 0x3fff); out += 0x10000;` — both masks
applied to the high surrogate `c`; the validated low surrogate `c2` is never
used in the value.  Returns the code point and the number of units consumed;
`none` models the error-handler calls. -/
def to_utf32_16 : List Nat → Option (Nat × Nat)
| [] => none
| c :: rest =>
  if c < 0xd800 ∨ c > 0xdfff then some (c, 1)
  else if c < 0xdc00 then
    match rest with
    | [] => none
    | c2 :: _ =>
      if c2 < 0xdc00 ∨ c2 > 0xdfff then none
      else some ((((c &&& 0x3ff) <<< 10) ||| (c &&& 0x3fff)) + 0x10000, 2)
  else none

/-- internal::from_utf32<Ch, 1>::convert (lines 694-727): encode one code
point as UTF-8 bytes. -/
def from_utf32_8 (c : Nat) : List Nat :=
  if c ≤ 0x7f then [c]
  else if c ≤ 0x7ff then
    [0xc0 + ((c >>> 6) &&& 0x3f), 0x80 + (c &&& 0x3f)]
  else if c < 0x10000 then
    [0xe0 + ((c >>> 12) &&& 0x0f), 0x80 + ((c >>> 6) &&& 0x3f), 0x80 + (c &&& 0x3f)]
  else
    [0xf0 + ((c >>> 18) &&& 0x07), 0x80 + ((c >>> 12) &&& 0x3f),
     0x80 + ((c >>> 6) &&& 0x3f), 0x80 + (c &&& 0x3f)]

/-- The `case ChIn('u')` branch of json_document::parse_string for an 8-bit
document (lines 2282-2307): read `\uXXXX`; if it is a surrogate, require and
range-check a second `\uXXXX`; then run `internal::convert<0>` on the unit
pair, i.e. `to_utf32_16` followed by `from_utf32_8`.  The input list starts
at the backslash (the C++ rewinds to it); the result is the UTF-8 bytes
appended to the string being built, plus the remaining input. -/
def parse_u_escape_utf8 (s : List Nat) : Option (List Nat × List Nat) :=
  if s.length < 6 then none
  else
    match read_utf16 s with
    | none => none
    | some (c0, rest1) =>
      if 0xd800 ≤ c0 ∧ c0 ≤ 0xdfff then
        if rest1.length < 6 then none
        else
          match read_utf16 rest1 with
          | none => none
          | some (c1, rest2) =>
            if c1 < 0xdc00 ∨ 0xdfff < c1 then none
            else
              match to_utf32_16 [c0, c1] with
              | none => none
              | some (cp, _) => some (from_utf32_8 cp, rest2)
      else
        match to_utf32_16 [c0] with
        | none => none
        | some (cp, _) => some (from_utf32_8 cp, rest1)

/-- The twelve characters of the escape sequence backslash-u-d834
backslash-u-dd1e as it appears inside a JSON string. -/
def escD834DD1E : List Nat :=
  [92, 117, 100, 56, 51, 52, 92, 117, 100, 100, 49, 101]

/-- Parse flag parse_no_string_terminators (line 910). -/
def parse_no_string_terminators : Nat := 1

/-- Parse flag parse_no_inline_translation (line 912). -/
def parse_no_inline_translation : Nat := 2

/-- Parse flag parse_force_string_terminators (line 914). -/
def parse_force_string_terminators : Nat := 4

/-- parse_non_destructive = no_string_terminators | no_inline_translation
(line 916); documented as "Ensures that the buffer passed to
json_document::parse is not modified". -/
def parse_non_destructive : Nat :=
  parse_no_string_terminators ||| parse_no_inline_translation

/-- The internal flag parse_do_swap (line 196). -/
def parse_do_swap : Nat := 1 <<< 30

/-- The encodings of json_document::encoding (lines 1544-1555), minus
`unknown`. -/
inductive JEncoding
| utf8
| utf16
| utf16Swap
| utf32
| utf32Swap
deriving DecidableEq, Repr

/-- The flag adjustment json_document::parse performs when dispatching on the
detected encoding (lines 1595-1603): the byte-swapped encodings run
parse_internal with `Flags | internal::parse_do_swap`. -/
def effective_flags (flags : Nat) : JEncoding → Nat
| JEncoding.utf16Swap => flags ||| parse_do_swap
| JEncoding.utf32Swap => flags ||| parse_do_swap
| _ => flags

/-- internal::read_helper<true>::read for a 16-bit unit (lines 257-260):
`(val >> 8) | (val << 8)` on an unsigned short. -/
def swap16 (c : Nat) : Nat := (c >>> 8) ||| ((c <<< 8) &&& 0xffff)

/-- internal::read<Flags> for a 16-bit unit (lines 275-279): byte-swap
exactly when parse_do_swap is set. -/
def read16 (flags : Nat) (c : Nat) : Nat :=
  if flags &&& parse_do_swap ≠ 0 then swap16 c else c

/-- internal::digit_pred for a 16-bit unit (lines 293-301): false for values
at or above 256, else the digit lookup table. -/
def digit_pred16 (c : Nat) : Bool :=
  decide (c < 256 ∧ 48 ≤ c ∧ c ≤ 57)

/-- json_document::skip with digit_pred (lines 1782-1790): advance while the
unit under the cursor is a digit.  The fuel is the buffer length, which
bounds the number of steps. -/
def skip_digits (flags : Nat) (buf : List Nat) : Nat → Nat → Nat
| 0, pos => pos
| f + 1, pos =>
  match buf.get? pos with
  | none => pos
  | some u => if digit_pred16 (read16 flags u) then skip_digits flags buf f (pos + 1) else pos

/-- json_document::measure_number instantiated at a 16-bit input unit (lines
2126-2183): optional minus, then a single zero or a digit series, optional
fraction, optional exponent.  Returns the end position of the number;
`none` models the "Expected digit" style parse errors. -/
def measure_number_u16 (flags : Nat) (buf : List Nat) (start : Nat) : Option Nat :=
  let len := buf.length
  let p1 := if start < len ∧ read16 flags (buf.getD start 0) = 45 then start + 1 else start
  let zres : Option Nat :=
    if p1 < len ∧ read16 flags (buf.getD p1 0) = 48 then some (p1 + 1)
    else
      let p2 := skip_digits flags buf len p1
      if p2 = p1 then none else some p2
  match zres with
  | none => none
  | some p2 =>
    let fres : Option Nat :=
      if p2 < len ∧ read16 flags (buf.getD p2 0) = 46 then
        let p3 := p2 + 1
        let p4 := skip_digits flags buf len p3
        if p4 = p3 then none else some p4
      else some p2
    match fres with
    | none => none
    | some p4 =>
      if p4 < len ∧ (read16 flags (buf.getD p4 0) = 101 ∨ read16 flags (buf.getD p4 0) = 69) then
        let p5 := p4 + 1
        let p6 :=
          if p5 < len ∧ (read16 flags (buf.getD p5 0) = 43 ∨ read16 flags (buf.getD p5 0) = 45)
          then p5 + 1 else p5
        let p7 := skip_digits flags buf len p6
        if p7 = p6 then none else some p7
      else some p4

/-- The loop `while (data < num_end) internal::convert<Flags>(...)` of
parse_number (lines 2355-2358) for the in-place 16-bit-to-16-bit case, using
unicode_converter<Flags, ChIn, ChOut, 2, 2>::convert (lines 825-845): read a
unit through the swap, store it at the output cursor, and copy the second
half of a surrogate pair when present.  In the in-place case the output
cursor starts at the input cursor, so the stores land in the input buffer.
`none` models the surrogate-pair error. -/
def convert_16_16_loop (flags : Nat) : Nat → List Nat → Nat → Nat → Nat → Option (List Nat)
| 0, buf, inp, _, nend => if inp < nend then none else some buf
| f + 1, buf, inp, outp, nend =>
  if inp < nend then
    let c := read16 flags (buf.getD inp 0)
    let buf1 := buf.set outp c
    if 0xd800 ≤ c ∧ c < 0xdc00 then
      let c2 := read16 flags (buf1.getD (inp + 1) 0)
      if c2 < 0xdc00 ∨ 0xdfff < c2 then none
      else convert_16_16_loop flags f (buf1.set (outp + 1) c2) (inp + 2) (outp + 2) nend
    else convert_16_16_loop flags f buf1 (inp + 1) (outp + 1) nend
  else some buf

/-- json_document::parse_number instantiated at `sizeof(Ch) == sizeof(ChIn)`
with 16-bit units (lines 2321-2361), tracking only its effect on the input
buffer.  Fast path (line 2327): when `Flags & (force | no_term | swap)`
equals exactly parse_no_string_terminators the value points inline and
nothing is written.  Otherwise `require_alloc` is true only for width growth
(impossible here) or parse_force_string_terminators (line 2337) — the code
does not consult parse_no_inline_translation — and when `require_alloc` is
false the output cursor is the input pointer itself (line 2345), so the
convert loop rewrites the buffer in place.  When `require_alloc` is true the
copy goes to the arena and the buffer is untouched. -/
def parse_number_u16 (flags : Nat) (buf : List Nat) (pos : Nat) : Option (List Nat) :=
  if flags &&& (parse_force_string_terminators ||| parse_no_string_terminators ||| parse_do_swap)
      = parse_no_string_terminators then
    some buf
  else
    let requireAlloc := flags &&& parse_force_string_terminators ≠ 0
    match measure_number_u16 flags buf pos with
    | none => none
    | some nend =>
      if requireAlloc then some buf
      else convert_16_16_loop flags (nend + 1) buf pos pos nend

/-- The digit-accumulation inner loop of the exponent branch of
internal::value_to_number (lines 430-445): its `default` arm assigns
`start = end`, so it is a structural loop over the remaining characters. -/
def vtn_exp_loop : List Nat → Nat → Nat
| [], e => e
| c :: r, e =>
  if 48 ≤ c ∧ c ≤ 57 then vtn_exp_loop r (e * 10 + (c - 48)) else e

/-- The main loop of internal::value_to_number (lines 400-454), with fuel.
Doubles are modelled as exact rationals; this does not affect control flow.
The digit arm advances; the period arm advances or assigns `start = end`;
the exponent arm always returns; the `default:` arm (lines 451-452) merely
breaks out of the switch without advancing `start`, so the loop retests the
same character — modelled as a recursive call on the unchanged list, which
only fuel exhaustion (`none`) can end. -/
def vtn_loop : Nat → List Nat → ℚ → ℚ → Bool → Option ℚ
| 0, _, _, _, _ => none
| _ + 1, [], num, fact, _ => some (num * fact)
| fuel + 1, c :: r, num, fact, period =>
  if 48 ≤ c ∧ c ≤ 57 then
    vtn_loop fuel r (num * 10 + ((c - 48 : Nat) : ℚ)) (if period then fact / 10 else fact) period
  else if c = 46 then
    if period = false then vtn_loop fuel r num fact true
    else vtn_loop fuel [] num fact period
  else if c = 101 ∨ c = 69 then
    let num1 := num * fact
    match r with
    | [] => some num1
    | d :: r2 =>
      let neg := d = 45
      let s2 := if d = 43 ∨ d = 45 then r2 else d :: r2
      let e := vtn_exp_loop s2 0
      some (if neg then num1 * (1 / (10 : ℚ) ^ e) else num1 * (10 : ℚ) ^ e)
  else
    vtn_loop fuel (c :: r) num fact period

/-- internal::value_to_number (lines 382-457): empty range gives 0, the text
`true` gives 1, a leading minus sets the factor to -1, then the main loop
runs.  `none` means the loop never reached the end of the range within the
given fuel. -/
def value_to_number (fuel : Nat) (s : List Nat) : Option ℚ :=
  if s = [] then some 0
  else if s = [116, 114, 117, 101] then some 1
  else
    match s with
    | [] => some 0
    | c :: r =>
      if c = 45 then vtn_loop fuel r 0 (-1) false
      else vtn_loop fuel (c :: r) 0 1 false

/-- internal::string_tables::falsestr (lines 2496-2500): the shared constant
`false` text that is the `text` range of every boolean-false value, and hence
the range json_value::as_number passes to value_to_number (line 1149). -/
def falsestr : List Nat := [102, 97, 108, 115, 101]

/-- FASTJSON_ALIGNMENT (line 139): pointer-size alignment, 8 bytes on a
64-bit platform. -/
def ALIGNMENT : Nat := 8

/-- sizeof(memory_pool::header) (lines 1069-1073): one pointer. -/
def headerSize : Nat := 8

/-- memory_pool::align_forward (lines 1039-1042), on offsets: round up to the
next multiple of ALIGNMENT. -/
def align_forward (x : Nat) : Nat := (x + (ALIGNMENT - 1)) / ALIGNMENT * ALIGNMENT

/-- State of a memory_pool.  Memory regions are identified by number: region
0 is the static in-object area, regions 1, 2, ... are dynamic heap blocks in
order of allocation.  `blocks` is the live chain headed by `pool_` (empty
when `pool_` is the static start), `freed` the released blocks, and the
bump cursor `next_` / limit `end_` live in region `curRegion` at offsets
`nextOff` / `endOff` — the C++ stores them as raw pointers that always point
into one and the same block. -/
structure Pool where
  staticSize : Nat
  dynamicSize : Nat
  blocks : List Nat
  freed : List Nat
  fresh : Nat
  curRegion : Nat
  nextOff : Nat
  endOff : Nat
deriving DecidableEq, Repr

/-- memory_pool::init (lines 1030-1036): `pool_ = static start; next_ =
align_forward(pool_); end_ = static end`. -/
def pool_init (ss ds : Nat) : Pool :=
  { staticSize := ss, dynamicSize := ds, blocks := [], freed := [], fresh := 1,
    curRegion := 0, nextOff := align_forward 0, endOff := ss }

/-- memory_pool::pool_alloc (lines 1047-1066): allocate a heap block of
`max(dynamic_size, minsize) + 2 * ALIGNMENT + sizeof(header)` bytes, place
the chain header at its aligned front, and point `pool_`, `next_`, `end_` at
it.  Heap allocation is modelled as always succeeding. -/
def pool_alloc_block (p : Pool) (minsize : Nat) : Pool :=
  let size := max p.dynamicSize minsize + ALIGNMENT * 2 + headerSize
  let r := p.fresh
  { p with blocks := r :: p.blocks, fresh := p.fresh + 1, curRegion := r,
           nextOff := align_forward (align_forward 0 + headerSize), endOff := size }

/-- memory_pool::clear (lines 997-1005): walk the chain, releasing every
dynamic block, until `pool_` equals the static start.  The cursor fields
`next_` and `end_` are not touched by the C++ function, so `curRegion`,
`nextOff` and `endOff` keep their old values. -/
def pool_clear (p : Pool) : Pool :=
  { p with blocks := [], freed := p.freed ++ p.blocks }

/-- memory_pool::alloc (lines 1011-1026): if the request exceeds
`end_ - next_`, grab a new dynamic block first; then serve from `next_` and
bump it (aligned).  Returns the new state and the region/offset the returned
pointer lies in. -/
def pool_alloc (p : Pool) (size : Nat) : Pool × (Nat × Nat) :=
  let p1 := if size > p.endOff - p.nextOff then pool_alloc_block p size else p
  let allocd := (p1.curRegion, p1.nextOff)
  ({ p1 with nextOff := align_forward (p1.nextOff + size) }, allocd)

/-- Result of json_document::determine_encoding: a detected encoding, the
InvalidEncoding error, or a read past the end of the buffer (undefined
behavior in the C++). -/
inductive DetResult
| ok (e : JEncoding)
| invalidEncoding
| outOfBounds
deriving DecidableEq, Repr

/-- A 16-bit unit of the buffer as the machine reads it; `le` says whether
the machine is little-endian. -/
def unit16 (le : Bool) (bytes : List Nat) (i : Nat) : Nat :=
  if le then bytes.getD (2 * i) 0 + 256 * bytes.getD (2 * i + 1) 0
  else 256 * bytes.getD (2 * i) 0 + bytes.getD (2 * i + 1) 0

/-- A 32-bit unit of the buffer as the machine reads it. -/
def unit32 (le : Bool) (bytes : List Nat) (i : Nat) : Nat :=
  if le then
    bytes.getD (4 * i) 0 + 256 * bytes.getD (4 * i + 1) 0 +
      65536 * bytes.getD (4 * i + 2) 0 + 16777216 * bytes.getD (4 * i + 3) 0
  else
    16777216 * bytes.getD (4 * i) 0 + 65536 * bytes.getD (4 * i + 1) 0 +
      256 * bytes.getD (4 * i + 2) 0 + bytes.getD (4 * i + 3) 0

/-- json_document::determine_encoding (lines 1718-1755): if `num_bytes % 4`
is neither 2 nor 0, UTF-8; else if bytes 0 and 1 are both non-zero, UTF-8;
else if 16-bit units 0 and 1 are both non-zero, UTF-16, native exactly when
unit 0 is below 256; else if 32-bit unit 0 is zero, the InvalidEncoding
error; else UTF-32, native exactly when unit 0 is below 256.  Reads the C++
would perform past the end of the buffer are flagged `outOfBounds`. -/
def determine_encoding (le : Bool) (bytes : List Nat) : DetResult :=
  if bytes.length % 4 ≠ 2 ∧ bytes.length % 4 ≠ 0 then DetResult.ok JEncoding.utf8
  else if bytes.length < 2 then DetResult.outOfBounds
  else if bytes.getD 0 0 ≠ 0 ∧ bytes.getD 1 0 ≠ 0 then DetResult.ok JEncoding.utf8
  else if bytes.length < 4 then DetResult.outOfBounds
  else if unit16 le bytes 0 ≠ 0 ∧ unit16 le bytes 1 ≠ 0 then
    DetResult.ok (if unit16 le bytes 0 < 256 then JEncoding.utf16 else JEncoding.utf16Swap)
  else if unit32 le bytes 0 = 0 then DetResult.invalidEncoding
  else DetResult.ok (if unit32 le bytes 0 < 256 then JEncoding.utf32 else JEncoding.utf32Swap)

/-- The claim's detection rules, stated in the claim's own order and words:
byte count % 4 not in the set of 0 and 2 yields UTF-8; otherwise bytes 0 and
1 both non-zero yields UTF-8; otherwise 16-bit units 0 and 1 both non-zero
yields UTF-16, native exactly when unit 0 is below 256; otherwise a zero
32-bit unit 0 raises InvalidEncoding (`none`); otherwise UTF-32, native
exactly when unit 0 is below 256. -/
def claim_encoding (le : Bool) (bytes : List Nat) : Option JEncoding :=
  if ¬(bytes.length % 4 = 0 ∨ bytes.length % 4 = 2) then some JEncoding.utf8
  else if bytes.getD 0 0 ≠ 0 ∧ bytes.getD 1 0 ≠ 0 then some JEncoding.utf8
  else if unit16 le bytes 0 ≠ 0 ∧ unit16 le bytes 1 ≠ 0 then
    some (if unit16 le bytes 0 < 256 then JEncoding.utf16 else JEncoding.utf16Swap)
  else if unit32 le bytes 0 = 0 then none
  else some (if unit32 le bytes 0 < 256 then JEncoding.utf32 else JEncoding.utf32Swap)

theorem clearChildFields_next_self (h : Heap) (c : Nat) :
    (clearChildFields h c c).next = none := by
  simp [clearChildFields, setNext, setPrev, setOwner]

theorem clearChildFields_next_other (h : Heap) (c p : Nat) (hne : p ≠ c) :
    (clearChildFields h c p).next = (h p).next := by
  simp [clearChildFields, setNext, setPrev, setOwner, hne]

theorem setChild_next (h : Heap) (a p : Nat) (v : Option Nat) :
    (setChild h a v p).next = (h p).next := by
  by_cases hp : p = a <;> simp [setChild, hp]

/-- Fuel adequacy for the remove_all loop: when the loop is entered with
`p = child_` (which `remove_all` guarantees), any fuel of at least two rounds
produces the same heap, because the first round zeroes `p->next_` and the
second round therefore drives `child_` to null. -/
theorem removeAllLoop_fuel (h : Heap) (p self : Nat) (hentry : (h self).child = some p)
    (n : Nat) : removeAllLoop h p self (n + 2) = removeAllLoop h p self 2 := by
  have hselfnext : ∀ (h0 : Heap) (v : Option Nat), ((setChild h0 self v) p).next = (h0 p).next :=
    fun h0 v => setChild_next h0 self p v
  simp only [removeAllLoop, hentry]
  set h2 := setChild (clearChildFields h p) self ((h p).next) with hh2
  have hpn : (h2 p).next = none := by
    rw [hh2, hselfnext, clearChildFields_next_self]
  cases hc2 : (h2 self).child with
  | none =>
    cases n with
    | zero => simp [removeAllLoop, hc2]
    | succ m => simp [removeAllLoop, hc2]
  | some c2 =>
    cases n with
    | zero => simp [removeAllLoop, hc2]
    | succ m =>
      simp only [removeAllLoop, hc2, hpn]
      set h4 := setChild (clearChildFields h2 c2) self none with hh4
      have hc4 : (h4 self).child = none := by
        rw [hh4]; simp [setChild]
      cases m with
      | zero => simp [removeAllLoop, hc4]
      | succ k => simp [removeAllLoop, hc4]

theorem walkPrevSlots_stuck (h : Heap) (sl : Slot) (hr : readSlot h sl = none) :
    ∀ k, walkPrevSlots h k sl = sl := by
  intro k
  cases k with
  | zero => rfl
  | succ m => simp [walkPrevSlots, hr]

theorem walkPrevSlots_succ (h : Heap) (sl : Slot) (n k : Nat)
    (hr : readSlot h sl = some n) :
    walkPrevSlots h (k + 1) sl = walkPrevSlots h k (Slot.prevOf n) := by
  simp [walkPrevSlots, hr]

theorem walkNextSlots_stuck (h : Heap) (sl : Slot) (hr : readSlot h sl = none) :
    ∀ k, walkNextSlots h k sl = sl := by
  intro k
  cases k with
  | zero => rfl
  | succ m => simp [walkNextSlots, hr]

theorem walkNextSlots_succ (h : Heap) (sl : Slot) (n k : Nat)
    (hr : readSlot h sl = some n) :
    walkNextSlots h (k + 1) sl = walkNextSlots h k (Slot.nextOf n) := by
  simp [walkNextSlots, hr]

theorem array_insert_neg_eq (h : Heap) (self v : Nat) (index : Int)
    (hneg : index < 0)
    (harr : (h self).vtype = VType.varray) (hown : (h v).owner = none) :
    array_insert h self (some v) index =
      (insertAtSlotNeg h self v (walkPrevSlots h ((-index) - 1).toNat (Slot.lastC self)), true) := by
  have hok : ¬((h self).vtype ≠ VType.varray ∨ (h v).owner ≠ none) := by
    simp [harr, hown]
  simp [array_insert, hok, hneg]

theorem array_insert_pos_eq (h : Heap) (self v : Nat) (index : Int)
    (hpos : ¬index < 0)
    (harr : (h self).vtype = VType.varray) (hown : (h v).owner = none) :
    array_insert h self (some v) index =
      (insertAtSlotPos h self v (walkNextSlots h index.toNat (Slot.firstC self)), true) := by
  have hok : ¬((h self).vtype ≠ VType.varray ∨ (h v).owner ≠ none) := by
    simp [harr, hown]
  simp [array_insert, hok, hpos]

/-- C1.  The claim states that for a non-negative index `i < child_count`,
`at(i)` walks `i` steps forward from the first child, so `at(0)` on an array
with one child must return that child.  In the code the non-negative branch
of `json_object::at(int)` (lines 1246-1249) never initializes the local `p`
(only the negative branch assigns `p = lastchild_`), so `at(0)` returns
whatever the indeterminate local held: with junk null it returns the null
sentinel, with junk 7 it returns node 7 — never the first child (node 2).
The negative-index half of the claim does hold: `at(-1)` returns the last
child regardless of the junk value. -/
theorem C1_at_forward_uses_uninitialized_local :
    at_index exHeap1 1 0 none = none ∧
    at_index exHeap1 1 0 (some 7) = some 7 ∧
    at_index exHeap1 1 (-1) none = some 2 ∧
    at_index exHeap1 1 (-1) (some 7) = some 2 := by
  refine ⟨rfl, rfl, rfl, rfl⟩

/-- C4.  The claim states that after every successful mutator the children
form a consistent doubly-linked list with correct owners.  Inserting a fresh
value 3 at index 0 of the one-element array `[2]` succeeds, yet afterwards
the first child is 3 with `first_child.prev = 3` (a self-link instead of
null, because line 1311 reads `(*pp)->prev_` after line 1310 already
overwrote it with `val`), and the new child's owner is still null because
`array_insert` never assigns `owner_`. -/
theorem C4_array_insert_breaks_list_invariant :
    (array_insert exHeap1 1 (some 3) 0).2 = true ∧
    ((array_insert exHeap1 1 (some 3) 0).1 1).child = some 3 ∧
    ((array_insert exHeap1 1 (some 3) 0).1 3).prev = some 3 ∧
    ((array_insert exHeap1 1 (some 3) 0).1 3).owner = none ∧
    ((array_insert exHeap1 1 (some 3) 0).1 1).numchildren = 2 := by
  refine ⟨rfl, rfl, rfl, rfl, rfl⟩

/-- C5.  The claim describes array_insert's INT_MIN, INT_MAX and -1 cases and
asserts the inserted value's owner becomes the array.  On the one-element
array `[2]` with fresh value 3:
with INT_MIN the value does become the first child but its next sibling is
null instead of the former first child 2 (line 1300 reads `*pp` after the
walk fell off the front, yielding 0), so 2 is no longer reachable forward;
with -1 the value is linked after the old last child with `next = itself`
(line 1300 reads `(*pp)->next_` after line 1299 set it to `val`), not
inserted before the last child;
with INT_MAX the forward append happens but `prev` is left null; and in
every case `owner_` is never assigned. -/
theorem C5_array_insert_clamped_cases_wrong :
    (array_insert exHeap1 1 (some 3) (-2147483648)).2 = true ∧
    ((array_insert exHeap1 1 (some 3) (-2147483648)).1 1).child = some 3 ∧
    ((array_insert exHeap1 1 (some 3) (-2147483648)).1 3).next = none ∧
    ((array_insert exHeap1 1 (some 3) (-2147483648)).1 3).owner = none ∧
    ((array_insert exHeap1 1 (some 3) (-1)).1 3).next = some 3 ∧
    ((array_insert exHeap1 1 (some 3) (-1)).1 3).owner = none ∧
    (array_insert exHeap1 1 (some 3) 2147483647).2 = true ∧
    ((array_insert exHeap1 1 (some 3) 2147483647).1 2).next = some 3 ∧
    ((array_insert exHeap1 1 (some 3) 2147483647).1 1).lastchild = some 3 ∧
    ((array_insert exHeap1 1 (some 3) 2147483647).1 3).prev = none ∧
    ((array_insert exHeap1 1 (some 3) 2147483647).1 3).owner = none := by
  have hwp : walkPrevSlots exHeap1 (Int.toNat 2147483647) (Slot.lastC 1) = Slot.prevOf 2 := by
    have h1 : (Int.toNat 2147483647) = 2147483646 + 1 := by decide
    rw [h1, walkPrevSlots_succ exHeap1 (Slot.lastC 1) 2 2147483646 (by decide)]
    exact walkPrevSlots_stuck exHeap1 (Slot.prevOf 2) (by decide) 2147483646
  have hwn : walkNextSlots exHeap1 (Int.toNat 2147483647) (Slot.firstC 1) = Slot.nextOf 2 := by
    have h1 : (Int.toNat 2147483647) = 2147483646 + 1 := by decide
    rw [h1, walkNextSlots_succ exHeap1 (Slot.firstC 1) 2 2147483646 (by decide)]
    exact walkNextSlots_stuck exHeap1 (Slot.nextOf 2) (by decide) 2147483646
  have hmin : array_insert exHeap1 1 (some 3) (-2147483648) =
      (insertAtSlotNeg exHeap1 1 3 (Slot.prevOf 2), true) := by
    rw [array_insert_neg_eq exHeap1 1 3 (-2147483648) (by decide) (by decide) (by decide)]
    norm_num
    rw [hwp]
  have hmax : array_insert exHeap1 1 (some 3) 2147483647 =
      (insertAtSlotPos exHeap1 1 3 (Slot.nextOf 2), true) := by
    rw [array_insert_pos_eq exHeap1 1 3 2147483647 (by decide) (by decide) (by decide)]
    norm_num
    rw [hwn]
  rw [hmin, hmax]
  refine ⟨rfl, rfl, rfl, rfl, rfl, rfl, rfl, rfl, rfl, rfl, rfl⟩

/-- C6.  The claim states that remove_all detaches every child and clears its
owner and sibling links.  On the three-child array `[2, 3, 4]` the container
itself is emptied, and children 2 and 3 are cleared, but child 4 keeps
`owner = 1` and `prev = 3`: the loop variable `p` of remove_all (line 1475)
is never advanced, so from the second round on the saved `next` is read from
the already-cleared first child and the loop stops after two rounds,
orphaning the third and later children with stale fields.  Such a child
cannot be reattached, since array_add rejects values whose owner is set. -/
theorem C6_remove_all_strands_third_child :
    (remove_all exHeap3 1 1).child = none ∧
    (remove_all exHeap3 1 1).lastchild = none ∧
    (remove_all exHeap3 1 1).numchildren = 0 ∧
    (remove_all exHeap3 1 2).owner = none ∧
    (remove_all exHeap3 1 3).owner = none ∧
    (remove_all exHeap3 1 4).owner = some 1 ∧
    (remove_all exHeap3 1 4).prev = some 3 ∧
    (array_add (remove_all exHeap3 1) 1 (some 4)).2 = false := by
  refine ⟨rfl, rfl, rfl, rfl, rfl, rfl, rfl, rfl⟩

/-- C8 counterexample.  The claim states array_add fails (returns false) when
passed the shared null sentinel.  In `exHeap1`, address 0 is exactly the
sentinel of `json_value::null()` (kind null, no owner, no siblings); the
mutators of the C++ source check only for a null pointer, a wrong container
kind, and a non-null owner (line 1276), so array_add on the sentinel returns
true and even sets the sentinel's owner field. -/
theorem C8_sentinel_insert_succeeds :
    (exHeap1 0).vtype = VType.vnull ∧
    (exHeap1 0).owner = none ∧
    (array_add exHeap1 1 (some 0)).2 = true ∧
    ((array_add exHeap1 1 (some 0)).1 0).owner = some 1 := by
  refine ⟨rfl, rfl, rfl, rfl⟩

/-- C8 as amended: array_add rejects exactly a null pointer, a non-array
container, or an already-owned value; any unowned value — including the
shared null sentinel, for which no identity check exists — is appended and
acquires the container as owner.  (In the C++ API the sentinel is protected
only by being returned as a const reference from lookups.) -/
theorem setPrev_owner (h : Heap) (a : Nat) (v : Option Nat) (p : Nat) :
    (setPrev h a v p).owner = (h p).owner := by
  by_cases hp : p = a <;> simp [setPrev, hp]

theorem setNext_owner (h : Heap) (a : Nat) (v : Option Nat) (p : Nat) :
    (setNext h a v p).owner = (h p).owner := by
  by_cases hp : p = a <;> simp [setNext, hp]

theorem setChild_owner (h : Heap) (a : Nat) (v : Option Nat) (p : Nat) :
    (setChild h a v p).owner = (h p).owner := by
  by_cases hp : p = a <;> simp [setChild, hp]

theorem setLastchild_owner (h : Heap) (a : Nat) (v : Option Nat) (p : Nat) :
    (setLastchild h a v p).owner = (h p).owner := by
  by_cases hp : p = a <;> simp [setLastchild, hp]

theorem setNumchildren_owner (h : Heap) (a : Nat) (v : Nat) (p : Nat) :
    (setNumchildren h a v p).owner = (h p).owner := by
  by_cases hp : p = a <;> simp [setNumchildren, hp]

/-- add_child unconditionally makes the container the owner of the appended
value: every store after the initial `child->owner_ = this` leaves owner
fields untouched. -/
theorem add_child_owner (h : Heap) (self c : Nat) :
    ((add_child h self c) c).owner = some self := by
  unfold add_child
  set h1 := setOwner h c (some self) with hh1
  have h1o : (h1 c).owner = some self := by simp [hh1, setOwner]
  set h2 := setNext (setPrev h1 c none) c none with hh2
  have h2o : (h2 c).owner = some self := by
    rw [hh2, setNext_owner, setPrev_owner]; exact h1o
  by_cases hc : (h2 self).child = none
  · rw [if_pos hc, setNumchildren_owner, setLastchild_owner, setChild_owner]
    exact h2o
  · rw [if_neg hc]
    set h3 := setPrev h2 c ((h2 self).lastchild) with hh3
    have h3o : (h3 c).owner = some self := by rw [hh3, setPrev_owner]; exact h2o
    cases hl : (h3 self).lastchild with
    | none =>
      simp only [hl]
      rw [setNumchildren_owner, setLastchild_owner]
      exact h3o
    | some l =>
      simp only [hl]
      rw [setNumchildren_owner, setLastchild_owner, setNext_owner]
      exact h3o

/-- C8 as amended: array_add rejects exactly a null pointer, a non-array
container, or an already-owned value; any unowned value — including the
shared null sentinel, for which no identity check exists — is appended and
acquires the container as owner.  (In the C++ API the sentinel is protected
only by being returned as a const reference from lookups.) -/
theorem C8_array_add_accepts_any_unowned_value (h : Heap) (self s : Nat)
    (harr : (h self).vtype = VType.varray) (hown : (h s).owner = none) :
    (array_add h self (some s)).2 = true ∧
    ((array_add h self (some s)).1 s).owner = some self := by
  have hok : ¬((h self).vtype ≠ VType.varray ∨ (h s).owner ≠ none) := by
    simp [harr, hown]
  constructor
  · simp [array_add, hok]
  · simp only [array_add, hok, if_false]
    exact add_child_owner h self s

/-- C8 witness: the amended statement applied to the concrete heap `exHeap1`
with the sentinel node at address 0. -/
theorem C8_array_add_accepts_any_unowned_value_witness :
    (array_add exHeap1 1 (some 0)).2 = true ∧
    ((array_add exHeap1 1 (some 0)).1 0).owner = some 1 :=
  C8_array_add_accepts_any_unowned_value exHeap1 1 0 (by decide) (by decide)

/-- C2.  The claim states that the escape pair backslash-u-d834
backslash-u-dd1e decodes to the single code point U+1D11E, stored in an 8-bit
document as the UTF-8 bytes F0 9D 84 9E.  The code instead produces U+1D834:
in to_utf32 for 16-bit input (line 666) the second operand of the merge is
`c & 0x3fff` — the high surrogate again, with a 14-bit mask — rather than
`c2 & 0x3ff`, so the validated low surrogate never enters the value, and the
parser stores the bytes F0 9D A0 B4.  The encoder itself is fine: U+1D11E
would encode to exactly the claimed bytes, so the decode is at fault. -/
theorem C2_surrogate_pair_decoded_to_wrong_code_point :
    to_utf32_16 [0xd834, 0xdd1e] = some (0x1d834, 2) ∧
    parse_u_escape_utf8 escD834DD1E = some ([0xf0, 0x9d, 0xa0, 0xb4], []) ∧
    from_utf32_8 0x1d11e = [0xf0, 0x9d, 0x84, 0x9e] ∧
    [0xf0, 0x9d, 0xa0, 0xb4] ≠ [0xf0, 0x9d, 0x84, 0x9e] := by
  refine ⟨by decide, by decide, by decide, by decide⟩

/-- C3.  The claim states that a NON_DESTRUCTIVE parse leaves every byte of
the input untouched for every input encoding, the byte-swapped ones
included.  For byte-swapped UTF-16 input, parse dispatches with the
parse_do_swap flag or-ed in, which defeats parse_number's inline fast path
(its condition at line 2327 demands no swap), and parse_number then computes
`require_alloc` from parse_force_string_terminators alone (line 2337) —
parse_no_inline_translation is not consulted — so the output cursor is the
input pointer and the convert loop stores the byte-swapped units back into
the caller's buffer.  Concretely the single swapped unit 0x3100 (the
character 1 of a number) is rewritten to 0x0031. -/
theorem C3_non_destructive_swapped_number_rewrites_buffer :
    parse_number_u16 (effective_flags parse_non_destructive JEncoding.utf16Swap) [0x3100] 0
      = some [0x0031] ∧
    (0x0031 : Nat) ≠ 0x3100 ∧
    parse_number_u16 parse_non_destructive [0x0031] 0 = some [0x0031] := by
  refine ⟨by decide, by decide, by decide⟩

theorem vtn_loop_stuck (c : Nat) (r : List Nat)
    (hd : ¬(48 ≤ c ∧ c ≤ 57)) (hp : ¬c = 46) (he : ¬(c = 101 ∨ c = 69)) :
    ∀ fuel num fact period, vtn_loop fuel (c :: r) num fact period = none := by
  intro fuel
  induction fuel with
  | zero => intro num fact period; rfl
  | succ n ih =>
    intro num fact period
    simp only [vtn_loop, if_neg hd, if_neg hp, if_neg he]
    exact ih num fact period

/-- C9.  The claim states value_to_number reaches the end of every range
`start <= end` and returns a double, naming the text `false` of a boolean
false value as an example.  The `default:` arm of the conversion loop (lines
451-452) breaks out of the switch without advancing `start`, so on the first
character of `false` — not a digit, period, or exponent letter — the loop
retests the same character forever: for every fuel bound the model exhausts
its fuel instead of returning.  This contradicts the function's own comment
("as much of the string as possible is processed") and as_number's
documented result of 0.0 for a boolean false value. -/
theorem C9_value_to_number_never_terminates_on_false :
    ∀ fuel, value_to_number fuel falsestr = none := by
  intro fuel
  have h : value_to_number fuel falsestr = vtn_loop fuel falsestr 0 1 false := rfl
  rw [h]
  exact vtn_loop_stuck 102 [97, 108, 115, 101] (by decide) (by decide) (by decide) fuel 0 1 false

/-- C7.  The claim states that after memory_pool::clear no dynamic block
remains allocated (true: the chain walk of lines 999-1004 frees them all)
and that the pool is back in its initial state with the next allocation
served from the static area, never from a released block.  False: clear
resets only `pool_`; `next_` and `end_` keep pointing into the last dynamic
block just freed, so on a default pool that spilled into a dynamic block a
post-clear `alloc(8)` fits in the stale `end_ - next_` gap and returns a
pointer inside the freed block (region 1, offset 40008) instead of the
static area (region 0). -/
theorem C7_clear_leaves_cursor_in_freed_block :
    (pool_alloc (pool_init 32768 32768) 40000).2 = (1, 8) ∧
    (pool_clear (pool_alloc (pool_init 32768 32768) 40000).1).blocks = [] ∧
    (pool_clear (pool_alloc (pool_init 32768 32768) 40000).1).freed = [1] ∧
    (pool_alloc (pool_clear (pool_alloc (pool_init 32768 32768) 40000).1) 8).2 = (1, 40008) ∧
    (1 : Nat) ≠ 0 := by
  refine ⟨by decide, by decide, by decide, by decide, by decide⟩

/-- C10.  On every buffer whose unit reads stay in bounds (at least four
bytes whenever the byte count is 0 or 2 modulo 4, so that the 16-bit and
32-bit unit tests the C++ performs do not read past the end),
determine_encoding returns exactly what the claim's ordered rules prescribe,
for either machine endianness. -/
theorem C10_determine_encoding_follows_claim (le : Bool) (bytes : List Nat)
    (h2 : bytes.length % 4 = 0 ∨ bytes.length % 4 = 2 → 4 ≤ bytes.length) :
    determine_encoding le bytes =
      (match claim_encoding le bytes with
       | some e => DetResult.ok e
       | none => DetResult.invalidEncoding) := by
  unfold determine_encoding claim_encoding
  by_cases hm : bytes.length % 4 = 0 ∨ bytes.length % 4 = 2
  · have h4 : 4 ≤ bytes.length := h2 hm
    have hc1 : ¬(bytes.length % 4 ≠ 2 ∧ bytes.length % 4 ≠ 0) := by
      rcases hm with hm | hm
      · exact fun hcc => hcc.2 hm
      · exact fun hcc => hcc.1 hm
    rw [if_neg hc1, if_neg (by omega : ¬bytes.length < 2), if_neg (not_not_intro hm)]
    by_cases hb : bytes.getD 0 0 ≠ 0 ∧ bytes.getD 1 0 ≠ 0
    · rw [if_pos hb, if_pos hb]
    · rw [if_neg hb, if_neg hb, if_neg (by omega : ¬bytes.length < 4)]
      by_cases hu : unit16 le bytes 0 ≠ 0 ∧ unit16 le bytes 1 ≠ 0
      · rw [if_pos hu, if_pos hu]
      · rw [if_neg hu, if_neg hu]
        by_cases hw : unit32 le bytes 0 = 0
        · rw [if_pos hw, if_pos hw]
        · rw [if_neg hw, if_neg hw]
  · have hc1 : bytes.length % 4 ≠ 2 ∧ bytes.length % 4 ≠ 0 := by
      constructor
      · exact fun hq => hm (Or.inr hq)
      · exact fun hq => hm (Or.inl hq)
    rw [if_pos hc1, if_pos hm]

/-- C10 witness: the theorem applied to the four-byte buffer 00 31 00 32 on
a little-endian machine, where it detects byte-swapped UTF-16, and the
concrete evaluations of both sides. -/
theorem C10_determine_encoding_follows_claim_witness :
    determine_encoding true [0, 49, 0, 50] = DetResult.ok JEncoding.utf16Swap ∧
    claim_encoding true [0, 49, 0, 50] = some JEncoding.utf16Swap ∧
    determine_encoding true [0, 49, 0, 50] =
      (match claim_encoding true [0, 49, 0, 50] with
       | some e => DetResult.ok e
       | none => DetResult.invalidEncoding) :=
  ⟨by decide, by decide,
   C10_determine_encoding_follows_claim true [0, 49, 0, 50] (by decide)⟩

end FastJson
